import Mathlib

/-
Verification of the Green_ship FuelEU compliance engine
(backend/src/core: Pool.entity.ts, BankingRecord.entity.ts,
ApplyBanking.usecase.ts, CalculateCB.usecase.ts, GetPoolDetails.usecase.ts /
CompareRoutes use case).

Numbers: the TypeScript code computes with JS numbers on decimal literals;
we embed them as exact rationals (ℚ), years as integers (ℤ).
Fallible constructors/operations return `Except String`.
Metadata fields that never enter any computation (uuid ids, createdBy,
createdAt, transactionDate, description strings) are omitted from the
structures; every computational field is kept.
-/

namespace GreenShip

/-- Mirror of JavaScript String.prototype.trim (and Lean's String.trim):
drop leading and trailing whitespace.  Defined over the character list so
the kernel can evaluate it. -/
def trimStr (s : String) : String :=
  ⟨((s.data.dropWhile Char.isWhitespace).reverse.dropWhile Char.isWhitespace).reverse⟩

/-- Pool member, from interface PoolMember in Pool.entity.ts. -/
structure PoolMember where
  shipId : String
  complianceBalance : ℚ
  contribution : ℚ
  contributionTonnes : ℚ
deriving Repr, DecidableEq

/-- Pool entity state, from class Pool in Pool.entity.ts. -/
structure Pool where
  poolName : String
  year : ℤ
  members : List PoolMember
  totalCB : ℚ
  isCompliant : Bool
deriving Repr, DecidableEq

/-- Sum of member balances, the `reduce((sum, member) => sum + member.complianceBalance, 0)`
used by Pool.createPool and Pool.recalculateTotalCB. -/
def sumCB (ms : List PoolMember) : ℚ :=
  ms.foldl (fun s m => s + m.complianceBalance) 0

/-- Pool.validate (private, run by the constructor).  `!props.poolName ||
props.poolName.trim() === ''` collapses to the trim test, since the empty
string is the only falsy string. -/
def Pool.validateProps (poolName : String) (year : ℤ) (members : List PoolMember) :
    Except String Unit :=
  if trimStr poolName = "" then .error "Pool name is required"
  else if year < 2025 ∨ year > 2030 then .error "Year must be between 2025 and 2030"
  else if members.length < 2 then .error "Pool must have at least 2 members"
  else if (members.map (·.shipId)).dedup.length ≠ (members.map (·.shipId)).length then
    .error "Pool cannot have duplicate members"
  else .ok ()

/-- Pool.createPool static factory: computes totalCB as the sum of member
balances, isCompliant as totalCB ≥ 0, then runs the constructor validation. -/
def Pool.createPool (poolName : String) (year : ℤ) (members : List PoolMember) :
    Except String Pool :=
  let totalCB := sumCB members
  let isCompliant := decide (0 ≤ totalCB)
  match Pool.validateProps poolName year members with
  | .error e => .error e
  | .ok _ => .ok { poolName := poolName, year := year, members := members,
                   totalCB := totalCB, isCompliant := isCompliant }

/-- Pool.recalculateTotalCB: full recomputation of totalCB and isCompliant
from the current member list. -/
def Pool.recalculateTotalCB (p : Pool) : Pool :=
  let t := sumCB p.members
  { p with totalCB := t, isCompliant := decide (0 ≤ t) }

/-- Pool.addMember: throws on duplicate shipId (state untouched), otherwise
pushes the member and recalculates.  The TS method mutates `this` and throws;
we return the outcome together with the post-call object state. -/
def Pool.addMember (p : Pool) (m : PoolMember) : Except String Unit × Pool :=
  if p.members.any (fun x => x.shipId = m.shipId) then
    (.error ("Ship " ++ m.shipId ++ " is already in the pool"), p)
  else
    let p1 := { p with members := p.members ++ [m] }
    (.ok (), p1.recalculateTotalCB)

/-- Pool.removeMember: finds the index, splices the member out, THEN checks
the minimum-size rule (so on a 2-member pool the splice has already happened
when the error is thrown, and recalculateTotalCB never runs), otherwise
recalculates.  Returned pair = (outcome, post-call object state). -/
def Pool.removeMember (p : Pool) (shipId : String) : Except String Unit × Pool :=
  match p.members.findIdx? (fun m => m.shipId = shipId) with
  | none => (.error ("Ship " ++ shipId ++ " is not in the pool"), p)
  | some i =>
    let ms := p.members.eraseIdx i
    let p1 := { p with members := ms }
    if ms.length < 2 then
      (.error "Pool must have at least 2 members", p1)
    else
      (.ok (), p1.recalculateTotalCB)

/-- Pool.getSurplusMembers: members with strictly positive balance. -/
def Pool.getSurplusMembers (p : Pool) : List PoolMember :=
  p.members.filter (fun m => 0 < m.complianceBalance)

/-- Pool.getDeficitMembers: members with strictly negative balance. -/
def Pool.getDeficitMembers (p : Pool) : List PoolMember :=
  p.members.filter (fun m => m.complianceBalance < 0)

/-- Pool.getTotalSurplus: sum of balances over the surplus members. -/
def Pool.getTotalSurplus (p : Pool) : ℚ :=
  p.getSurplusMembers.foldl (fun s m => s + m.complianceBalance) 0

/-- Pool.getTotalDeficit: absolute value of the sum over the deficit members. -/
def Pool.getTotalDeficit (p : Pool) : ℚ :=
  |p.getDeficitMembers.foldl (fun s m => s + m.complianceBalance) 0|

/-- Pool.calculatePenalty: 0 when the stored compliance flag is set, else
deficit tonnes (|totalCB| / 1,000,000) times 2400 EUR per tonne. -/
def Pool.calculatePenalty (p : Pool) : ℚ :=
  if p.isCompliant then 0 else |p.totalCB| / 1000000 * 2400

/-- Pool.getPenaltyPerMember: total penalty split evenly over the members. -/
def Pool.getPenaltyPerMember (p : Pool) : ℚ :=
  let t := p.calculatePenalty
  if t = 0 then 0 else t / (p.members.length : ℚ)

/-- Transaction kinds, from enum BankingTransactionType. -/
inductive BankingTransactionType where
  | BANK
  | BORROW
deriving Repr, DecidableEq

/-- Banking ledger entry, from class BankingRecord in BankingRecord.entity.ts. -/
structure BankingRecord where
  shipId : String
  transactionType : BankingTransactionType
  year : ℤ
  amount : ℚ
  sourceYear : Option ℤ
  remainingBalance : ℚ
deriving Repr, DecidableEq

/-- BankingRecord.validate (private, run by the constructor).  The TS guard
`!props.sourceYear` is truthiness: it fires when sourceYear is undefined OR 0,
hence the `getD 0 = 0` test. -/
def BankingRecord.validateProps (shipId : String) (transactionType : BankingTransactionType)
    (year : ℤ) (amount : ℚ) (sourceYear : Option ℤ) (remainingBalance : ℚ) :
    Except String Unit :=
  if trimStr shipId = "" then .error "Ship ID is required"
  else if year < 2025 ∨ year > 2030 then .error "Year must be between 2025 and 2030"
  else if amount ≤ 0 then .error "Amount must be positive"
  else if remainingBalance < 0 then .error "Remaining balance cannot be negative"
  else if transactionType = .BORROW ∧ sourceYear.getD 0 = 0 then
    .error "Source year is required for BORROW transactions"
  else .ok ()

/-- The BankingRecord constructor: validate, then build the record. -/
def BankingRecord.create (shipId : String) (transactionType : BankingTransactionType)
    (year : ℤ) (amount : ℚ) (sourceYear : Option ℤ) (remainingBalance : ℚ) :
    Except String BankingRecord :=
  match BankingRecord.validateProps shipId transactionType year amount sourceYear remainingBalance with
  | .error e => .error e
  | .ok _ => .ok { shipId := shipId, transactionType := transactionType, year := year,
                   amount := amount, sourceYear := sourceYear,
                   remainingBalance := remainingBalance }

/-- BankingRecord.createBankTransaction: new BANK record with
remainingBalance = currentBalance + amount, no source year. -/
def BankingRecord.createBankTransaction (shipId : String) (year : ℤ) (amount : ℚ)
    (currentBalance : ℚ) : Except String BankingRecord :=
  BankingRecord.create shipId .BANK year amount none (currentBalance + amount)

/-- BankingRecord.createBorrowTransaction: rejects amount > currentBalance,
otherwise new BORROW record with remainingBalance = currentBalance − amount.
The TS error message interpolates the two numbers; the interpolation is
dropped here. -/
def BankingRecord.createBorrowTransaction (shipId : String) (year : ℤ) (amount : ℚ)
    (sourceYear : ℤ) (currentBalance : ℚ) : Except String BankingRecord :=
  if amount > currentBalance then
    .error "Cannot borrow: amount exceeds available balance"
  else
    BankingRecord.create shipId .BORROW year amount (some sourceYear)
      (currentBalance - amount)

/-- A ship's banking ledger, in transaction-date order (BankingRepository
orders by transaction_date; records are appended as they are saved). -/
def currentBalance (ledger : List BankingRecord) : ℚ :=
  match ledger.getLast? with
  | none => 0
  | some r => r.remainingBalance

/-- ApplyBankingUseCase.validateInput.  The truthiness guards `!input.year`,
`!input.amount`, `!input.sourceYear` only fire on the value 0, which the
range / positivity tests reject with the same message, so they are absorbed
by those tests. -/
def applyBankingValidateInput (shipId : String) (year : ℤ) (amount : ℚ)
    (sourceYear : ℤ) : Except String Unit :=
  if trimStr shipId = "" then .error "Ship ID is required"
  else if year < 2025 ∨ year > 2030 then .error "Year must be between 2025 and 2030"
  else if amount ≤ 0 then .error "Amount must be positive"
  else if sourceYear < 2025 ∨ sourceYear > 2030 then
    .error "Source year must be between 2025 and 2030"
  else if sourceYear ≥ year then .error "Source year must be before the year of use"
  else .ok ()

/-- ApplyBankingUseCase.execute over a ship's ledger: validate, read the
current balance from the repository, reject if it is below the requested
amount (the interpolated available/requested figures of the TS message are
dropped), otherwise create the BORROW record and save (append) it.
Returned pair = (outcome, ledger after the call). -/
def applyBankingExecute (ledger : List BankingRecord) (shipId : String) (year : ℤ)
    (amount : ℚ) (sourceYear : ℤ) : Except String BankingRecord × List BankingRecord :=
  match applyBankingValidateInput shipId year amount sourceYear with
  | .error e => (.error e, ledger)
  | .ok _ =>
    let cb := currentBalance ledger
    if cb < amount then
      (.error "Insufficient banked balance", ledger)
    else
      match BankingRecord.createBorrowTransaction shipId year amount sourceYear cb with
      | .error e => (.error e, ledger)
      | .ok r => (.ok r, ledger ++ [r])

/-- CalculateCBUseCase.validateInput.  `!input.year` only fires on 0, which
the range test already rejects with the same message. -/
def calculateCBValidateInput (shipId : String) (year : ℤ) : Except String Unit :=
  if trimStr shipId = "" then .error "Ship ID is required"
  else if year < 2025 ∨ year > 2030 then .error "Year must be between 2025 and 2030"
  else .ok ()

/-- FUELEU_TARGETS, the fixed lookup object in the CompareRoutes use case
(GetPoolDetails.usecase.ts): gCO₂e/MJ targets for 2025-2030; indexing with
any other year yields undefined, embedded as none. -/
def FUELEU_TARGETS (year : ℤ) : Option ℚ :=
  if year = 2025 then some 89.3368
  else if year = 2026 then some 87.7528
  else if year = 2027 then some 86.1688
  else if year = 2028 then some 84.5848
  else if year = 2029 then some 83.0008
  else if year = 2030 then some 81.4168
  else none

/-- The target selection in CompareRoutesUseCase.execute:
`FUELEU_TARGETS[year] || FUELEU_TARGETS[2025]` — an unknown year silently
falls back to the 2025 target instead of failing. -/
def compareRouteTarget (year : ℤ) : ℚ :=
  (FUELEU_TARGETS year).getD 89.3368

/-- The per-route surplus/deficit computation in CompareRoutesUseCase.execute:
energyInScope = fuelConsumption × 41000, difference =
target × energy − ghgIntensity × energy (positive = surplus, negative = deficit). -/
def routeComparisonDifference (target ghgIntensity fuelConsumption : ℚ) : ℚ :=
  let energyInScope := fuelConsumption * 41000
  let actualEmissions := ghgIntensity * energyInScope
  let targetEmissions := target * energyInScope
  targetEmissions - actualEmissions

/-- Modelled from the spec: the ComplianceBalance domain entity
(ComplianceBalance.entity.ts) is imported by CalculateCB.usecase.ts and the
CreatePool use case but its source file is not under src/; the yearly target
table is modelled from spec section 4.1 (it matches the FUELEU_TARGETS object
that IS in src). -/
def targetTable (year : ℤ) : Option ℚ :=
  if year = 2025 then some 89.3368
  else if year = 2026 then some 87.7528
  else if year = 2027 then some 86.1688
  else if year = 2028 then some 84.5848
  else if year = 2029 then some 83.0008
  else if year = 2030 then some 81.4168
  else none

/-- Modelled from the spec: result shape of ComplianceBalance.createFromRoute
(ComplianceBalance.entity.ts, not under src/), from spec sections 3 and 4.1. -/
structure ComplianceBalance where
  shipId : String
  year : ℤ
  energyInScope : ℚ
  ghgTarget : ℚ
  ghgActual : ℚ
  balanceGrams : ℚ
  isCompliant : Bool
  surplus : ℚ
  deficit : ℚ
  penalty : ℚ
deriving Repr, DecidableEq

/-- Modelled from the spec: ComplianceBalance.createFromRoute
(ComplianceBalance.entity.ts, not under src/), following spec section 4.1:
energyInScope = fuel × 41000; target from the fixed table, a year outside it
is a validation error; balanceGrams = (target − ghgActual) × energyInScope ×
multiplier; isCompliant = balanceGrams ≥ 0; surplus = max(balance, 0);
deficit = max(−balance, 0); penalty = deficit/1,000,000 × 2400 (0 when
compliant, since then deficit = 0). -/
def ComplianceBalance.calculate (shipId : String) (year : ℤ)
    (fuelConsumedTonnes ghgActual multiplier : ℚ) : Except String ComplianceBalance :=
  if trimStr shipId = "" then .error "Ship ID is required"
  else
    match targetTable year with
    | none => .error "Year must be between 2025 and 2030"
    | some target =>
      let energy := fuelConsumedTonnes * 41000
      let balance := (target - ghgActual) * energy * multiplier
      .ok { shipId := shipId, year := year, energyInScope := energy,
            ghgTarget := target, ghgActual := ghgActual, balanceGrams := balance,
            isCompliant := decide (0 ≤ balance),
            surplus := max balance 0, deficit := max (-balance) 0,
            penalty := max (-balance) 0 / 1000000 * 2400 }

/-- The pool bookkeeping invariant: the stored total is the sum of the
current member balances and the stored compliance flag is total ≥ 0. -/
def poolInv (p : Pool) : Prop :=
  p.totalCB = sumCB p.members ∧ p.isCompliant = decide (0 ≤ p.totalCB)

/-- Test fixture: a pool member with the given ship id and balance (the
contribution fields are display-only payload). -/
def mbr (sid : String) (cb : ℚ) : PoolMember :=
  { shipId := sid, complianceBalance := cb, contribution := cb, contributionTonnes := 0 }

/-- Recalculation restores the invariant, whatever the state was. -/
theorem poolInv_recalc (p : Pool) : poolInv p.recalculateTotalCB :=
  ⟨rfl, rfl⟩

/-- C5: after creation and after every successful addMember / removeMember,
totalCB equals the sum of the members' balances and isCompliant equals
(totalCB ≥ 0); the total is recomputed in full from the member list. -/
theorem pool_totalCB_invariant (nm : String) (yr : ℤ) (ms : List PoolMember)
    (p q : Pool) (m : PoolMember) (sid : String)
    (hc : Pool.createPool nm yr ms = Except.ok p) :
    poolInv p ∧
    ((q.addMember m).1 = Except.ok () → poolInv (q.addMember m).2) ∧
    ((q.removeMember sid).1 = Except.ok () → poolInv (q.removeMember sid).2) := by
  refine ⟨?_, ?_, ?_⟩
  · unfold Pool.createPool at hc
    cases hv : Pool.validateProps nm yr ms with
    | error e => rw [hv] at hc; cases hc
    | ok u => rw [hv] at hc; cases hc; exact ⟨rfl, rfl⟩
  · intro h
    unfold Pool.addMember at h ⊢
    by_cases hd : (q.members.any fun x => x.shipId = m.shipId) = true
    · rw [if_pos hd] at h; cases h
    · rw [if_neg hd] at h ⊢
      exact poolInv_recalc _
  · intro h
    unfold Pool.removeMember at h ⊢
    cases hf : q.members.findIdx? (fun x => x.shipId = sid) with
    | none =>
      rw [hf] at h
      dsimp only at h
      exact Except.noConfusion h
    | some i =>
      rw [hf] at h
      dsimp only at h ⊢
      by_cases hl : (q.members.eraseIdx i).length < 2
      · rw [if_pos hl] at h
        exact Except.noConfusion h
      · rw [if_neg hl]
        exact poolInv_recalc _

/-- Witness for C5 at a concrete pool. -/
theorem pool_totalCB_invariant_witness :
    poolInv { poolName := "Demo", year := 2025, members := [mbr "S1" 5, mbr "S2" (-3)],
              totalCB := 2, isCompliant := true } :=
  (pool_totalCB_invariant "Demo" 2025 [mbr "S1" 5, mbr "S2" (-3)]
    { poolName := "Demo", year := 2025, members := [mbr "S1" 5, mbr "S2" (-3)],
      totalCB := 2, isCompliant := true }
    { poolName := "Demo", year := 2025, members := [mbr "S1" 5, mbr "S2" (-3)],
      totalCB := 2, isCompliant := true }
    (mbr "S3" 1) "S1"
    (by norm_num [Pool.createPool, Pool.validateProps, sumCB, mbr,
      show trimStr "Demo" = "Demo" from by decide,
      show (List.dedup ["S1", "S2"]) = ["S1", "S2"] from by decide,
      show ("Demo" = "") = False from by decide])).1

/-- C7: the total penalty is (|totalCB| / 1,000,000) × 2400 when non-compliant
and 0 when compliant, and the per-member penalty is the total divided evenly
by the member count; a two-ship pool with balances −10,000,000 g and
−5,000,000 g has penalty 36,000 and penalty-per-member 18,000. -/
theorem pool_penalty_split (p : Pool) (hI : p.isCompliant = decide (0 ≤ p.totalCB)) :
    p.calculatePenalty = (if 0 ≤ p.totalCB then 0 else |p.totalCB| / 1000000 * 2400) ∧
    p.getPenaltyPerMember = p.calculatePenalty / (p.members.length : ℚ) ∧
    (∀ q : Pool,
      Pool.createPool "NegPool" 2025 [mbr "S1" (-10000000), mbr "S2" (-5000000)] =
        Except.ok q →
      q.calculatePenalty = 36000 ∧ q.getPenaltyPerMember = 18000) := by
  refine ⟨?_, ?_, ?_⟩
  · by_cases h0 : 0 ≤ p.totalCB <;> simp [Pool.calculatePenalty, hI, h0]
  · unfold Pool.getPenaltyPerMember
    by_cases ht : p.calculatePenalty = 0
    · simp [ht]
    · simp [ht]
  · intro q hq
    have he : Pool.createPool "NegPool" 2025 [mbr "S1" (-10000000), mbr "S2" (-5000000)] =
        Except.ok { poolName := "NegPool", year := 2025,
                    members := [mbr "S1" (-10000000), mbr "S2" (-5000000)],
                    totalCB := -15000000, isCompliant := false } := by
      norm_num [Pool.createPool, Pool.validateProps, sumCB, mbr,
        show trimStr "NegPool" = "NegPool" from by decide,
        show (List.dedup ["S1", "S2"]) = ["S1", "S2"] from by decide,
        show ("NegPool" = "") = False from by decide,
        show (decide ((0 : ℚ) ≤ -15000000)) = false from by decide]
    rw [he] at hq
    injection hq with hq
    subst hq
    constructor
    · norm_num [Pool.calculatePenalty]
    · norm_num [Pool.getPenaltyPerMember, Pool.calculatePenalty]

/-- Witness for C7: the concrete two-ship deficit pool of the claim. -/
theorem pool_penalty_split_witness :
    Pool.calculatePenalty
      { poolName := "NegPool", year := 2025,
        members := [mbr "S1" (-10000000), mbr "S2" (-5000000)],
        totalCB := -15000000, isCompliant := false } = 36000 ∧
    Pool.getPenaltyPerMember
      { poolName := "NegPool", year := 2025,
        members := [mbr "S1" (-10000000), mbr "S2" (-5000000)],
        totalCB := -15000000, isCompliant := false } = 18000 :=
  (pool_penalty_split
    { poolName := "NegPool", year := 2025,
      members := [mbr "S1" (-10000000), mbr "S2" (-5000000)],
      totalCB := -15000000, isCompliant := false } (by decide)).2.2
    { poolName := "NegPool", year := 2025,
      members := [mbr "S1" (-10000000), mbr "S2" (-5000000)],
      totalCB := -15000000, isCompliant := false }
    (by norm_num [Pool.createPool, Pool.validateProps, sumCB, mbr,
      show trimStr "NegPool" = "NegPool" from by decide,
      show (List.dedup ["S1", "S2"]) = ["S1", "S2"] from by decide,
      show ("NegPool" = "") = False from by decide,
      show (decide ((0 : ℚ) ≤ -15000000)) = false from by decide])

/-- C10: getSurplusMembers returns exactly the members with balance > 0,
getDeficitMembers exactly those with balance < 0; a member with balance 0 is
in neither list and moves neither total. -/
theorem pool_surplus_deficit (p : Pool) (m : PoolMember)
    (hz : m.complianceBalance = 0) :
    (∀ x : PoolMember, x ∈ p.getSurplusMembers ↔ x ∈ p.members ∧ 0 < x.complianceBalance) ∧
    (∀ x : PoolMember, x ∈ p.getDeficitMembers ↔ x ∈ p.members ∧ x.complianceBalance < 0) ∧
    m ∉ p.getSurplusMembers ∧ m ∉ p.getDeficitMembers ∧
    Pool.getTotalSurplus { p with members := p.members ++ [m] } = p.getTotalSurplus ∧
    Pool.getTotalDeficit { p with members := p.members ++ [m] } = p.getTotalDeficit := by
  refine ⟨?_, ?_, ?_, ?_, ?_, ?_⟩
  · intro x; simp [Pool.getSurplusMembers, List.mem_filter]
  · intro x; simp [Pool.getDeficitMembers, List.mem_filter]
  · simp [Pool.getSurplusMembers, List.mem_filter, hz]
  · simp [Pool.getDeficitMembers, List.mem_filter, hz]
  · unfold Pool.getTotalSurplus Pool.getSurplusMembers
    dsimp only
    rw [List.filter_append]
    simp [hz]
  · unfold Pool.getTotalDeficit Pool.getDeficitMembers
    dsimp only
    rw [List.filter_append]
    simp [hz]

/-- Witness for C10 at a concrete pool and a zero-balance member. -/
theorem pool_surplus_deficit_witness :
    mbr "Z" 0 ∉ Pool.getSurplusMembers
      { poolName := "Demo", year := 2025, members := [mbr "S1" 5, mbr "S2" (-3)],
        totalCB := 2, isCompliant := true } ∧
    mbr "Z" 0 ∉ Pool.getDeficitMembers
      { poolName := "Demo", year := 2025, members := [mbr "S1" 5, mbr "S2" (-3)],
        totalCB := 2, isCompliant := true } :=
  ⟨(pool_surplus_deficit
      { poolName := "Demo", year := 2025, members := [mbr "S1" 5, mbr "S2" (-3)],
        totalCB := 2, isCompliant := true } (mbr "Z" 0) rfl).2.2.1,
   (pool_surplus_deficit
      { poolName := "Demo", year := 2025, members := [mbr "S1" 5, mbr "S2" (-3)],
        totalCB := 2, isCompliant := true } (mbr "Z" 0) rfl).2.2.2.1⟩

/-- C2 (code divergence): on a 2-member pool, removeMember throws the
minimum-size error, but only AFTER splicing the member out: the post-call
state has lost the removed member while totalCB and isCompliant keep their
prior (now stale) values. -/
theorem removeMember_partial_mutation :
    ∃ p : Pool,
      Pool.createPool "Duo" 2025 [mbr "S1" 5, mbr "S2" (-3)] = Except.ok p ∧
      p.members = [mbr "S1" 5, mbr "S2" (-3)] ∧
      (p.removeMember "S1").1 = Except.error "Pool must have at least 2 members" ∧
      (p.removeMember "S1").2.members = [mbr "S2" (-3)] ∧
      (p.removeMember "S1").2.totalCB = p.totalCB ∧
      (p.removeMember "S1").2.isCompliant = p.isCompliant := by
  refine ⟨{ poolName := "Duo", year := 2025, members := [mbr "S1" 5, mbr "S2" (-3)],
            totalCB := 2, isCompliant := true }, ?_, rfl, ?_, ?_, ?_, ?_⟩
  · norm_num [Pool.createPool, Pool.validateProps, sumCB, mbr,
      show trimStr "Duo" = "Duo" from by decide,
      show (List.dedup ["S1", "S2"]) = ["S1", "S2"] from by decide,
      show ("Duo" = "") = False from by decide]
  · rfl
  · rfl
  · rfl
  · rfl

/-- Successful use-case validation pins down all the input conditions. -/
theorem applyBankingValidateInput_ok_dest {s : String} {y : ℤ} {a : ℚ} {sy : ℤ}
    (h : applyBankingValidateInput s y a sy = Except.ok ()) :
    trimStr s ≠ "" ∧ 2025 ≤ y ∧ y ≤ 2030 ∧ 0 < a ∧ 2025 ≤ sy ∧ sy ≤ 2030 ∧ sy < y := by
  unfold applyBankingValidateInput at h
  split_ifs at h with h1 h2 h3 h4 h5
  exact ⟨h1, by omega, by omega, not_le.mp h3, by omega, by omega, by omega⟩

/-- Successful constructor validation pins down the record conditions. -/
theorem validateProps_ok_dest {s : String} {tt : BankingTransactionType} {y : ℤ}
    {a : ℚ} {sy : Option ℤ} {rb : ℚ}
    (h : BankingRecord.validateProps s tt y a sy rb = Except.ok ()) :
    trimStr s ≠ "" ∧ 2025 ≤ y ∧ y ≤ 2030 ∧ 0 < a ∧ 0 ≤ rb ∧
      ¬(tt = .BORROW ∧ sy.getD 0 = 0) := by
  unfold BankingRecord.validateProps at h
  split_ifs at h with h1 h2 h3 h4 h5
  exact ⟨h1, by omega, by omega, not_le.mp h3, not_lt.mp h4, h5⟩

/-- Constructor validation succeeds when all the record conditions hold. -/
theorem validateProps_ok_intro {s : String} {tt : BankingTransactionType} {y : ℤ}
    {a : ℚ} {sy : Option ℤ} {rb : ℚ}
    (hs : trimStr s ≠ "") (hy1 : 2025 ≤ y) (hy2 : y ≤ 2030) (ha : 0 < a)
    (hrb : 0 ≤ rb) (hsy : ¬(tt = .BORROW ∧ sy.getD 0 = 0)) :
    BankingRecord.validateProps s tt y a sy rb = Except.ok () := by
  unfold BankingRecord.validateProps
  rw [if_neg hs, if_neg (by omega : ¬(y < 2025 ∨ y > 2030)), if_neg (not_le.mpr ha),
      if_neg (not_lt.mpr hrb), if_neg hsy]

/-- The constructor returns exactly the record built from its arguments when
validation passes. -/
theorem create_ok_intro {s : String} {tt : BankingTransactionType} {y : ℤ}
    {a : ℚ} {sy : Option ℤ} {rb : ℚ}
    (hs : trimStr s ≠ "") (hy1 : 2025 ≤ y) (hy2 : y ≤ 2030) (ha : 0 < a)
    (hrb : 0 ≤ rb) (hsy : ¬(tt = .BORROW ∧ sy.getD 0 = 0)) :
    BankingRecord.create s tt y a sy rb =
      Except.ok { shipId := s, transactionType := tt, year := y, amount := a,
                  sourceYear := sy, remainingBalance := rb } := by
  unfold BankingRecord.create
  rw [validateProps_ok_intro hs hy1 hy2 ha hrb hsy]

/-- C4: on any valid borrow request, an amount above the ship's current
balance fails with the insufficient-balance error and leaves the ledger
untouched; an amount within the balance writes exactly one BORROW record
with resulting balance = currentBalance − amount. -/
theorem borrow_insufficient_no_write (ledger : List BankingRecord) (shipId : String)
    (year : ℤ) (amount : ℚ) (sourceYear : ℤ)
    (hv : applyBankingValidateInput shipId year amount sourceYear = Except.ok ()) :
    (currentBalance ledger < amount →
      (applyBankingExecute ledger shipId year amount sourceYear).1 =
        Except.error "Insufficient banked balance" ∧
      (applyBankingExecute ledger shipId year amount sourceYear).2 = ledger) ∧
    (amount ≤ currentBalance ledger →
      ∃ r, (applyBankingExecute ledger shipId year amount sourceYear).1 = Except.ok r ∧
        r.remainingBalance = currentBalance ledger - amount ∧
        r.transactionType = .BORROW ∧
        (applyBankingExecute ledger shipId year amount sourceYear).2 = ledger ++ [r]) := by
  obtain ⟨hs, hy1, hy2, ha, hsy1, hsy2, hsylt⟩ := applyBankingValidateInput_ok_dest hv
  unfold applyBankingExecute
  rw [hv]
  dsimp only
  constructor
  · intro hlt
    rw [if_pos hlt]
    exact ⟨rfl, rfl⟩
  · intro hle
    rw [if_neg (not_lt.mpr hle)]
    unfold BankingRecord.createBorrowTransaction
    rw [if_neg (not_lt.mpr hle)]
    rw [create_ok_intro hs hy1 hy2 ha (by linarith)
        (by simp only [Option.getD_some]; omega)]
    exact ⟨_, rfl, rfl, rfl, rfl⟩

/-- Witness for C4: empty ledger (balance 0), borrowing 5 g fails and writes
nothing. -/
theorem borrow_insufficient_no_write_witness :
    (applyBankingExecute [] "SHIP1" 2026 5 2025).1 =
      Except.error "Insufficient banked balance" ∧
    (applyBankingExecute [] "SHIP1" 2026 5 2025).2 = [] :=
  (borrow_insufficient_no_write [] "SHIP1" 2026 5 2025 rfl).1 (by decide)

/-- C6: banking an amount a on balance b ≥ 0 yields resulting balance b + a,
and borrowing the same a (valid sourceYear < year) from that balance returns
it to b. -/
theorem bank_then_borrow_roundtrip (shipId : String) (year sourceYear : ℤ) (b a : ℚ)
    (hs : trimStr shipId ≠ "") (h1 : 2025 ≤ sourceYear) (h2 : sourceYear < year)
    (h3 : year ≤ 2030) (hb : 0 ≤ b) (ha : 0 < a) :
    ∃ r1 r2,
      BankingRecord.createBankTransaction shipId sourceYear a b = Except.ok r1 ∧
      r1.remainingBalance = b + a ∧
      BankingRecord.createBorrowTransaction shipId year a sourceYear r1.remainingBalance =
        Except.ok r2 ∧
      r2.remainingBalance = b := by
  refine ⟨{ shipId := shipId, transactionType := .BANK, year := sourceYear, amount := a,
            sourceYear := none, remainingBalance := b + a },
          { shipId := shipId, transactionType := .BORROW, year := year, amount := a,
            sourceYear := some sourceYear, remainingBalance := b + a - a },
          ?_, rfl, ?_, ?_⟩
  · unfold BankingRecord.createBankTransaction
    exact create_ok_intro hs h1 (by omega) ha (by linarith) (by simp)
  · unfold BankingRecord.createBorrowTransaction
    dsimp only
    rw [if_neg (by push_neg; linarith : ¬a > b + a)]
    exact create_ok_intro hs (by omega) h3 ha (by linarith)
      (by simp only [Option.getD_some]; omega)
  · show b + a - a = b
    ring

/-- Witness for C6: bank 100,000,000 g on balance 0 in 2025, borrow it back
in 2026; balance returns to 0. -/
theorem bank_then_borrow_roundtrip_witness :
    ∃ r1 r2,
      BankingRecord.createBankTransaction "SHIP1" 2025 100000000 0 = Except.ok r1 ∧
      r1.remainingBalance = 0 + 100000000 ∧
      BankingRecord.createBorrowTransaction "SHIP1" 2026 100000000 2025
        r1.remainingBalance = Except.ok r2 ∧
      r2.remainingBalance = 0 :=
  bank_then_borrow_roundtrip "SHIP1" 2026 2025 0 100000000 (by decide) (by decide)
    (by decide) (by decide) (by decide) (by decide)

/-- C8 counterexample: the BankingRecord constructor accepts a BORROW whose
source year (2030) is not strictly before the transaction year (2025); only
presence of the source year is validated. -/
theorem bankingRecord_sourceYear_unchecked :
    BankingRecord.create "SHIP1" .BORROW 2025 1 (some 2030) 0 =
      Except.ok { shipId := "SHIP1", transactionType := .BORROW, year := 2025,
                  amount := 1, sourceYear := some 2030, remainingBalance := 0 } ∧
    ¬((2030 : ℤ) < 2025) :=
  ⟨rfl, by omega⟩

/-- C8 amended: every successfully constructed record has positive amount,
non-negative remaining balance, and a BORROW record carries a (nonzero)
source year; the strictness condition sourceYear < year is enforced only by
ApplyBankingUseCase.validateInput, not by the constructor. -/
theorem bankingRecord_invariants (s : String) (tt : BankingTransactionType)
    (y : ℤ) (a : ℚ) (sy : Option ℤ) (rb : ℚ) (r : BankingRecord)
    (h : BankingRecord.create s tt y a sy rb = Except.ok r) :
    (0 < r.amount ∧ 0 ≤ r.remainingBalance ∧
      (r.transactionType = .BORROW → r.sourceYear.getD 0 ≠ 0)) ∧
    (∀ (s2 : String) (y2 : ℤ) (a2 : ℚ) (sy2 : ℤ),
      applyBankingValidateInput s2 y2 a2 sy2 = Except.ok () → sy2 < y2) := by
  constructor
  · unfold BankingRecord.create at h
    cases hv : BankingRecord.validateProps s tt y a sy rb with
    | error e => rw [hv] at h; exact Except.noConfusion h
    | ok u =>
      rw [hv] at h
      injection h with h
      subst h
      obtain ⟨-, -, -, ha, hrb, hsy⟩ := validateProps_ok_dest hv
      exact ⟨ha, hrb, fun hbr hz => hsy ⟨hbr, hz⟩⟩
  · intro s2 y2 a2 sy2 h2
    exact (applyBankingValidateInput_ok_dest h2).2.2.2.2.2.2

/-- Witness for C8 at a concrete successful construction. -/
theorem bankingRecord_invariants_witness :
    0 < ({ shipId := "SHIP1", transactionType := .BORROW, year := 2026, amount := 5,
           sourceYear := some 2025, remainingBalance := 10 } : BankingRecord).amount :=
  (bankingRecord_invariants "SHIP1" .BORROW 2026 5 (some 2025) 10 _ rfl).1.1

/-- C1: on every successful calculation the balance in grams is
(target[year] − ghgActual) × (fuel × 41000) × multiplier with target taken
from the fixed 2025-2030 table; a positive balance is all surplus, a negative
one all deficit; with multiplier 1 the balance coincides with the per-route
difference computed by the CompareRoutes use case in src. -/
theorem complianceBalance_formula (shipId : String) (year : ℤ)
    (fuel ghg mult : ℚ) (cb : ComplianceBalance)
    (h : ComplianceBalance.calculate shipId year fuel ghg mult = Except.ok cb) :
    (∃ t, targetTable year = some t ∧
      cb.balanceGrams = (t - ghg) * (fuel * 41000) * mult ∧
      (mult = 1 → cb.balanceGrams = routeComparisonDifference t ghg fuel)) ∧
    (0 < cb.balanceGrams → cb.surplus = cb.balanceGrams ∧ cb.deficit = 0) ∧
    (cb.balanceGrams < 0 → cb.deficit = -cb.balanceGrams ∧ cb.surplus = 0) ∧
    targetTable 2025 = some 89.3368 ∧ targetTable 2026 = some 87.7528 ∧
    targetTable 2027 = some 86.1688 ∧ targetTable 2028 = some 84.5848 ∧
    targetTable 2029 = some 83.0008 ∧ targetTable 2030 = some 81.4168 := by
  unfold ComplianceBalance.calculate at h
  by_cases hs : trimStr shipId = ""
  · rw [if_pos hs] at h; exact Except.noConfusion h
  · rw [if_neg hs] at h
    cases ht : targetTable year with
    | none => rw [ht] at h; exact Except.noConfusion h
    | some t =>
      rw [ht] at h
      injection h with h
      subst h
      refine ⟨⟨t, rfl, rfl, ?_⟩, ?_, ?_, rfl, rfl, rfl, rfl, rfl, rfl⟩
      · intro hm
        subst hm
        unfold routeComparisonDifference
        dsimp only
        ring
      · intro hpos
        dsimp only at hpos ⊢
        constructor
        · exact max_eq_left (le_of_lt hpos)
        · exact max_eq_right (by linarith)
      · intro hneg
        dsimp only at hneg ⊢
        constructor
        · exact max_eq_left (by linarith)
        · exact max_eq_right (by linarith)

/-- Witness for C1 at a concrete successful calculation. -/
theorem complianceBalance_formula_witness :
    targetTable 2025 = some 89.3368 :=
  (complianceBalance_formula "SHIP1" 2025 1 90 1 _ rfl).2.2.2.1

/-- C3 (code divergence): every validating operation rejects a year outside
2025-2030 (shown at 2024 for the CB use case, banking use case, Pool
constructor and the spec-modelled calculator), but CompareRoutesUseCase
silently substitutes the 2025 target 89.3368 for the unknown year 2024
through the fallback `FUELEU_TARGETS[year] || FUELEU_TARGETS[2025]`. -/
theorem compareRoutes_year_fallback :
    FUELEU_TARGETS 2024 = none ∧
    compareRouteTarget 2024 = 89.3368 ∧
    compareRouteTarget 2024 = compareRouteTarget 2025 ∧
    calculateCBValidateInput "SHIP1" 2024 =
      Except.error "Year must be between 2025 and 2030" ∧
    applyBankingValidateInput "SHIP1" 2024 5 2023 =
      Except.error "Year must be between 2025 and 2030" ∧
    Pool.validateProps "Duo" 2024 [mbr "S1" 5, mbr "S2" (-3)] =
      Except.error "Year must be between 2025 and 2030" ∧
    ComplianceBalance.calculate "SHIP1" 2024 5000 91 1 =
      Except.error "Year must be between 2025 and 2030" :=
  ⟨rfl, rfl, rfl, rfl, rfl, rfl, rfl⟩

/-- C9 counterexample: at fuel 5000 t, ghgActual 91 gCO₂e/MJ, year 2025
(target 89.3368), multiplier 1, the balance is −340,956,000 g — not the
−341,106,560,000 g the claim states; the CompareRoutes difference in src
gives the same −340,956,000. -/
theorem scenario_2025_claimed_value_wrong :
    ∃ cb, ComplianceBalance.calculate "SHIP1" 2025 5000 91 1 = Except.ok cb ∧
      cb.balanceGrams = -340956000 ∧
      cb.balanceGrams ≠ -341106560000 ∧
      routeComparisonDifference (compareRouteTarget 2025) 91 5000 = -340956000 := by
  refine ⟨_, rfl, ?_, ?_, ?_⟩
  · show ((89.3368 : ℚ) - 91) * (5000 * 41000) * 1 = -340956000
    norm_num
  · show ((89.3368 : ℚ) - 91) * (5000 * 41000) * 1 ≠ -341106560000
    norm_num
  · unfold routeComparisonDifference compareRouteTarget FUELEU_TARGETS
    norm_num

/-- C9 amended: the scenario values are energy 205,000,000 MJ, balance
(89.3368 − 91) × 205,000,000 × 1 = −340,956,000 g, deficit 340,956,000 > 0,
non-compliant, and penalty = deficitTonnes × 2400 = 818,294.4. -/
theorem scenario_2025_amended :
    ∃ cb, ComplianceBalance.calculate "SHIP1" 2025 5000 91 1 = Except.ok cb ∧
      cb.energyInScope = 205000000 ∧
      cb.ghgTarget = 89.3368 ∧
      cb.balanceGrams = (89.3368 - 91) * 205000000 * 1 ∧
      cb.balanceGrams = -340956000 ∧
      cb.deficit = 340956000 ∧
      0 < cb.deficit ∧
      cb.isCompliant = false ∧
      cb.surplus = 0 ∧
      cb.penalty = cb.deficit / 1000000 * 2400 ∧
      cb.penalty = 818294.4 := by
  refine ⟨_, rfl, ?_, rfl, ?_, ?_, ?_, ?_, ?_, ?_, rfl, ?_⟩
  · show (5000 : ℚ) * 41000 = 205000000
    norm_num
  · show ((89.3368 : ℚ) - 91) * (5000 * 41000) * 1 = (89.3368 - 91) * 205000000 * 1
    norm_num
  · show ((89.3368 : ℚ) - 91) * (5000 * 41000) * 1 = -340956000
    norm_num
  · show max (-(((89.3368 : ℚ) - 91) * (5000 * 41000) * 1)) 0 = 340956000
    rw [max_eq_left (by norm_num)]
    norm_num
  · show (0 : ℚ) < max (-(((89.3368 : ℚ) - 91) * (5000 * 41000) * 1)) 0
    rw [max_eq_left (by norm_num)]
    norm_num
  · show decide ((0 : ℚ) ≤ ((89.3368 : ℚ) - 91) * (5000 * 41000) * 1) = false
    rw [decide_eq_false_iff_not]
    norm_num
  · show max (((89.3368 : ℚ) - 91) * (5000 * 41000) * 1) 0 = 0
    rw [max_eq_right (by norm_num)]
  · show max (-(((89.3368 : ℚ) - 91) * (5000 * 41000) * 1)) 0 / 1000000 * 2400 = 818294.4
    rw [max_eq_left (by norm_num)]
    norm_num

end GreenShip
